import Mathlib

/-!
Verification development for the gateway RPC provider subsystem.

The definitions below are a shallow embedding of `src/rpc/helius-service.ts`
(the push-capable provider: subscription table, countdown timers, idle
disconnect, JSON-RPC frame dispatch) and `src/rpc/infura-service.ts`
(the polling-only provider: URL resolution and constructor checks).
JavaScript promises are modelled by an append-only settlement log with
absorbing semantics (settling an already-settled promise is a no-op, as in
JS), `Map` by an association list with `Map.set` / `Map.delete` semantics,
and `setTimeout` handles by the list of pending timer ids.
-/

/-- JSON values, used for raw notification payloads and vendor error objects. -/
inductive JVal where
  | null : JVal
  | bool (b : Bool) : JVal
  | num (n : Int) : JVal
  | str (s : String) : JVal
  | obj (fields : List (String × JVal)) : JVal

/-- JavaScript truthiness of a JSON value. -/
def jsTruthy : JVal → Bool
  | JVal.null => false
  | JVal.bool b => b
  | JVal.num n => n != 0
  | JVal.str s => s != ""
  | JVal.obj _ => true

/-- First binding of a key in a JSON object field list. -/
def lookupField : List (String × JVal) → String → Option JVal
  | [], _ => none
  | (k, v) :: rest, key => if k = key then some v else lookupField rest key

/-- JavaScript property access `j.k`: a field of an object, else `undefined` (none). -/
def jget : JVal → String → Option JVal
  | JVal.obj fields, k => lookupField fields k
  | _, _ => none

/-- JavaScript `'k' in j` for the shapes that occur here (objects). -/
def hasField (j : JVal) (k : String) : Bool := (jget j k).isSome

/-- JavaScript `typeof j === 'object'` for JSON values. -/
def isObjType : JVal → Bool
  | JVal.null => true
  | JVal.obj _ => true
  | _ => false

/-- Truthiness of a possibly-undefined value. -/
def optTruthy : Option JVal → Bool
  | some v => jsTruthy v
  | none => false

/-- The failure test of `handleWebSocketMessage` on a notification payload:
`result && result.value && typeof result.value === 'object' && 'err' in result.value && result.value.err`
(helius-service.ts line 236). -/
def notifFailure (result : JVal) : Bool :=
  jsTruthy result &&
    (match jget result "value" with
     | some v => jsTruthy v && isObjType v && hasField v "err" && optTruthy (jget v "err")
     | none => false)

/-- Does the character list start with the pattern? -/
def charsStartWith : List Char → List Char → Bool
  | [], _ => true
  | _ :: _, [] => false
  | p :: ps, c :: cs => p == c && charsStartWith ps cs

/-- Does the character list contain the pattern as a contiguous run? -/
def charsContain : List Char → List Char → Bool
  | pat, [] => charsStartWith pat []
  | pat, c :: cs => charsStartWith pat (c :: cs) || charsContain pat cs

/-- JavaScript substring test `s.includes(pat)` for the fixed patterns used here. -/
def strContains (s pat : String) : Bool := charsContain pat.data s.data

/-- Outcome of the benign-error test of `handleWebSocketMessage` (line 255):
`error.code === -32602 && error.message?.includes('Invalid subscription')`.
`swallow` is the early `return`; `proceed` falls through to the reject logic;
`thrown` is the TypeError raised by `?.includes` when `message` is a
non-nullish non-string (optional chaining short-circuits only on
null/undefined) — it propagates out of the handler and is caught by the
message callback's try/catch, so the frame is ignored. -/
inductive BenignCheck where
  | swallow : BenignCheck
  | proceed : BenignCheck
  | thrown : BenignCheck
deriving DecidableEq, Repr

/-- Evaluate the benign-error test (line 255), `&&` short-circuiting: the
message is only inspected when the code is exactly -32602. -/
def benignCheck (e : JVal) : BenignCheck :=
  if (match jget e "code" with
      | some (JVal.num n) => n == -32602
      | _ => false) then
    match jget e "message" with
    | none => BenignCheck.proceed
    | some JVal.null => BenignCheck.proceed
    | some (JVal.str s) =>
        if strContains s "Invalid subscription" then BenignCheck.swallow
        else BenignCheck.proceed
    | some _ => BenignCheck.thrown
  else BenignCheck.proceed

/-- JavaScript string interpolation of `error.message` (line 264). -/
def errMessageText (e : JVal) : String :=
  match jget e "message" with
  | some (JVal.str s) => s
  | some JVal.null => "null"
  | some (JVal.bool b) => toString b
  | some (JVal.num n) => toString n
  | some (JVal.obj _) => "[object Object]"
  | none => "undefined"

/-- `TransactionMonitorResult`: what a `monitorTransaction` promise resolves with. -/
structure TxMonitorResult where
  confirmed : Bool
  txData : Option JVal

/-- A settlement of a `monitorTransaction` promise: resolved or rejected. -/
inductive SettleKind where
  | resolved (r : TxMonitorResult) : SettleKind
  | rejected (msg : String) : SettleKind

/-- A `WebSocketSubscription` table entry.  The stored callbacks
(`resolve`/`reject`/`timeout`) all capture the original local subscription id
(`subscriptionId` in `monitorTransaction`), recorded here as `localId`; it also
identifies the promise of the `monitorTransaction` call that created the entry. -/
structure SubEntry where
  signature : String
  localId : Nat
deriving DecidableEq, Repr

/-- The `params` field of a `signatureNotification` frame. -/
structure NotifParams where
  result : JVal
  subscription : Nat

/-- An inbound `WebSocketMessage` after JSON parsing (helius-service.ts lines 14-34).
`result`/`id` are present exactly when they are numbers, matching the dispatch
tests `message.result !== undefined && typeof message.id === 'number'`. -/
structure WsMessage where
  method : Option String
  params : Option NotifParams
  result : Option Nat
  id : Option Nat
  error : Option JVal

/-- The mutable state of one `HeliusService` instance:
subscription table, id counter, pending countdown timers (by the local id their
callback captured), idle-disconnect timer flag, connection handle, and the log
of promise settlements performed so far. -/
structure ServiceState where
  subs : List (Nat × SubEntry)
  nextSubscriptionId : Nat
  timers : List Nat
  idleArmed : Bool
  ws : Bool
  settled : List (Nat × SettleKind)

/-- `Map.get`. -/
def mapGet : List (Nat × SubEntry) → Nat → Option SubEntry
  | [], _ => none
  | e :: rest, k => if e.1 = k then some e.2 else mapGet rest k

/-- `Map.delete`. -/
def mapDelete (m : List (Nat × SubEntry)) (k : Nat) : List (Nat × SubEntry) :=
  m.filter (fun e => e.1 != k)

/-- `Map.set`: replace in place when the key exists, else append (insertion order). -/
def mapSet (m : List (Nat × SubEntry)) (k : Nat) (v : SubEntry) : List (Nat × SubEntry) :=
  if (mapGet m k).isSome then m.map (fun e => if e.1 = k then (k, v) else e)
  else m ++ [(k, v)]

/-- The waiters whose promises have been settled so far. -/
def settledKeys (st : ServiceState) : List Nat := st.settled.map Prod.fst

/-- Settle the promise of waiter `w`.  JavaScript promises are settle-once:
a `resolve`/`reject` call on an already-settled promise is absorbed. -/
def settle (st : ServiceState) (w : Nat) (k : SettleKind) : ServiceState :=
  if w ∈ settledKeys st then st else { st with settled := st.settled ++ [(w, k)] }

/-- `scheduleIdleDisconnect` (lines 278-289): no-op while subscriptions remain,
otherwise (re-)arm the single-shot idle timer. -/
def scheduleIdleDisconnect (st : ServiceState) : ServiceState :=
  if st.subs.length > 0 then st else { st with idleArmed := true }

/-- `cancelIdleTimeout` (lines 291-296). -/
def cancelIdleTimeout (st : ServiceState) : ServiceState :=
  { st with idleArmed := false }

/-- `resolveWithCleanup` (lines 95-99): delete the entry keyed by the captured
local id, reschedule the idle disconnect, resolve the promise. -/
def resolveWithCleanup (st : ServiceState) (w : Nat) (r : TxMonitorResult) : ServiceState :=
  settle (scheduleIdleDisconnect { st with subs := mapDelete st.subs w }) w (SettleKind.resolved r)

/-- `rejectWithCleanup` (lines 101-105). -/
def rejectWithCleanup (st : ServiceState) (w : Nat) (msg : String) : ServiceState :=
  settle (scheduleIdleDisconnect { st with subs := mapDelete st.subs w }) w (SettleKind.rejected msg)

/-- The synchronous registration part of `monitorTransaction` (lines 90-128),
run after the connection is ensured: cancel the idle timer, allocate the next
local id, arm the countdown timer, insert the table entry, send the subscribe
frame.  When the connection is unavailable `monitorTransaction` throws before
touching any of this state, modelled as the identity. -/
def doSubscribe (st : ServiceState) (sig : String) : ServiceState :=
  if st.ws then
    let i := st.nextSubscriptionId
    { st with
      idleArmed := false
      nextSubscriptionId := i + 1
      timers := st.timers ++ [i]
      subs := mapSet st.subs i ⟨sig, i⟩ }
  else st

/-- The countdown-timer callback (lines 107-111): fires only while pending;
deletes the table entry under the captured local id `l`, reschedules the idle
disconnect, and resolves with `confirmed:false` and no details. -/
def doTimeoutFire (st : ServiceState) (l : Nat) : ServiceState :=
  if l ∈ st.timers then
    settle (scheduleIdleDisconnect
        { st with timers := st.timers.erase l, subs := mapDelete st.subs l })
      l (SettleKind.resolved ⟨false, none⟩)
  else st

/-- The `signatureNotification` branch of `handleWebSocketMessage` (lines 226-241). -/
def handleNotification (st : ServiceState) (p : NotifParams) : ServiceState :=
  match mapGet st.subs p.subscription with
  | none => st
  | some sub =>
    resolveWithCleanup
      { st with
        timers := st.timers.erase sub.localId,
        subs := mapDelete st.subs p.subscription }
      sub.localId
      (if notifFailure p.result then ⟨false, some p.result⟩ else ⟨true, some p.result⟩)

/-- The acknowledgment branch (lines 242-252): remap the table key from the
local id to the server-assigned subscription id. -/
def handleAck (st : ServiceState) (localId serverId : Nat) : ServiceState :=
  match mapGet st.subs localId with
  | none => st
  | some sub => { st with subs := mapSet (mapDelete st.subs localId) serverId sub }

/-- The error branch (lines 253-265): swallow the benign class, and when the
benign test itself throws (code -32602 with a non-nullish non-string message)
the TypeError is caught by the message callback (lines 200-207), leaving the
state unchanged; otherwise reject the matching waiter with the vendor message;
unmatched ids fall through. -/
def handleErrorFrame (st : ServiceState) (e : JVal) (mid : Option Nat) : ServiceState :=
  if jsTruthy e then
    match benignCheck e with
    | BenignCheck.swallow => st
    | BenignCheck.proceed =>
      match mid with
      | none => st
      | some i =>
        match mapGet st.subs i with
        | none => st
        | some sub =>
          rejectWithCleanup
            { st with
              timers := st.timers.erase sub.localId,
              subs := mapDelete st.subs i }
            sub.localId ("WebSocket error: " ++ errMessageText e)
    | BenignCheck.thrown => st
  else st

/-- The non-notification part of the dispatch if-chain. -/
def handleTail (st : ServiceState) (m : WsMessage) : ServiceState :=
  match m.result, m.id with
  | some r, some i => handleAck st i r
  | _, _ =>
    match m.error with
    | some e => handleErrorFrame st e m.id
    | none => st

/-- `handleWebSocketMessage` (lines 225-267): dispatch by frame shape in the
source order (notification, acknowledgment, error, otherwise ignore). -/
def handleWebSocketMessage (st : ServiceState) (m : WsMessage) : ServiceState :=
  match m.params with
  | some p =>
    if m.method = some "signatureNotification" then handleNotification st p
    else handleTail st m
  | none => handleTail st m

/-- The `for..of` loop of `disconnect`/`handleWebSocketClose`: visit the
entries in insertion order, skipping any entry no longer present, clear its
timer and reject it through `rejectWithCleanup`. -/
def rejectAllLoop : List (Nat × SubEntry) → ServiceState → String → ServiceState
  | [], st, _ => st
  | (k, _) :: rest, st, msg =>
    match mapGet st.subs k with
    | none => rejectAllLoop rest st msg
    | some sub =>
      rejectAllLoop rest
        (rejectWithCleanup { st with timers := st.timers.erase sub.localId }
          sub.localId msg) msg

/-- The transport `close` event (lines 214-218 and 269-276): the handle is
nulled first, then every outstanding subscription is rejected, the table is
cleared and the idle timer canceled. -/
def doWsClose (st : ServiceState) : ServiceState :=
  cancelIdleTimeout
    { rejectAllLoop st.subs { st with ws := false } "WebSocket disconnected" with subs := [] }

/-- `disconnect()` (lines 136-150): cancel the idle timer, reject every
outstanding subscription, clear the table, close the socket. -/
def doDisconnect (st : ServiceState) : ServiceState :=
  { rejectAllLoop st.subs (cancelIdleTimeout st) "Service disconnected" with
      subs := [], ws := false }

/-- The idle-timer callback (lines 282-288): fires only while armed; closes
the connection only when the table is still empty and a socket is open. -/
def doIdleFire (st : ServiceState) : ServiceState :=
  if st.idleArmed then
    if st.subs.length = 0 ∧ st.ws = true then { st with idleArmed := false, ws := false }
    else { st with idleArmed := false }
  else st

/-- The events that drive one provider instance: new subscriptions, countdown
timer firings, inbound frames (well-formed or unparseable), transport close,
explicit disconnect, and idle-timer firing. -/
inductive HEvent where
  | subscribe (sig : String) : HEvent
  | timeoutFire (localId : Nat) : HEvent
  | message (m : WsMessage) : HEvent
  | malformedFrame : HEvent
  | wsClose : HEvent
  | serviceDisconnect : HEvent
  | idleFire : HEvent

/-- One step of the provider state machine.  An unparseable frame is caught
and logged by the `message` callback (lines 200-207) and changes nothing. -/
def step (st : ServiceState) : HEvent → ServiceState
  | HEvent.subscribe sig => doSubscribe st sig
  | HEvent.timeoutFire l => doTimeoutFire st l
  | HEvent.message m => handleWebSocketMessage st m
  | HEvent.malformedFrame => st
  | HEvent.wsClose => doWsClose st
  | HEvent.serviceDisconnect => doDisconnect st
  | HEvent.idleFire => doIdleFire st

/-- A freshly connected provider: empty table, `nextSubscriptionId = 1`
(line 45), no timers, idle timer not armed, socket open, nothing settled. -/
def initState : ServiceState := ⟨[], 1, [], false, true, []⟩

/-- Run a sequence of events from the initial state. -/
def run (events : List HEvent) : ServiceState := events.foldl step initState

/-- An acknowledgment frame `(jsonrpc, result := serverId, id := localId)`. -/
def ackMessage (localId serverId : Nat) : WsMessage :=
  ⟨none, none, some serverId, some localId, none⟩

/-- A `signatureNotification` frame for server subscription id `s`. -/
def notifMessage (s : Nat) (payload : JVal) : WsMessage :=
  ⟨some "signatureNotification", some ⟨payload, s⟩, none, none, none⟩

/-- The connection-sharing state of `ensureWebSocketConnected` (lines 152-180):
whether a socket is open, whether a shared connect attempt (`this.connecting`)
is in flight, how many times `connectWebSocket` has been invoked, and how many
callers are suspended on the in-flight attempt. -/
structure ConnState where
  wsConnected : Bool
  connecting : Bool
  attempts : Nat
  waiters : Nat
deriving DecidableEq, Repr

/-- A provider with no socket and no attempt in flight (`Disconnected`). -/
def connInit : ConnState := ⟨false, false, 0, 0⟩

/-- The synchronous prefix of one `ensureWebSocketConnected` call with a valid
api key: return immediately when connected; join the in-flight attempt when one
exists; otherwise store a fresh `connectWebSocket()` future in `connecting`
(one more attempt) and await it. -/
def connRequest (st : ConnState) : ConnState :=
  if st.wsConnected then st
  else if st.connecting then { st with waiters := st.waiters + 1 }
  else { st with connecting := true, attempts := st.attempts + 1, waiters := st.waiters + 1 }

/-- Completion of the shared connect attempt: the owner resumes with the
attempt outcome (`true` on success, `false` from the catch branch) and clears
`connecting` in its finally block; each joiner resumes with
`isWebSocketConnected()` on success or `false` from its catch. The returned
list holds one boolean result per suspended caller. -/
def connComplete (st : ConnState) (success : Bool) : ConnState × List Bool :=
  ({ st with wsConnected := success, connecting := false, waiters := 0 },
   List.replicate st.waiters success)

/-- `n` concurrent `monitorTransaction` callers entering
`ensureWebSocketConnected` one after another (single-threaded event loop),
with no completion in between. -/
def runConnRequests : Nat → ConnState → ConnState
  | 0, st => st
  | n + 1, st => runConnRequests n (connRequest st)

/-- Modelled from the spec: `RPCProvider.isApiKeyValid` lives in
`rpc-provider-base.ts`, which is not part of the sources here.  Per the spec,
an empty api key is invalid (capability degrades, never throws): an empty
`apiKey` still yields a well-formed HTTP URL but `getWebSocketUrl` returns the
absent-capability signal and `supportsTransactionMonitoring()` is false. -/
def isApiKeyValid (apiKey : String) : Bool := apiKey != ""

/-- `HeliusService.getHttpUrl` (lines 54-58). -/
def heliusGetHttpUrl (apiKey network : String) : String :=
  "https://" ++ (if strContains network "devnet" then "devnet" else "mainnet")
    ++ ".helius-rpc.com/?api-key=" ++ apiKey

/-- `HeliusService.getWebSocketUrl` (lines 60-65). -/
def heliusGetWebSocketUrl (apiKey network : String) : Option String :=
  if isApiKeyValid apiKey then
    some ("wss://" ++ (if strContains network "devnet" then "devnet" else "mainnet")
      ++ ".helius-rpc.com/?api-key=" ++ apiKey)
  else none

/-- `HeliusService.supportsTransactionMonitoring` (lines 74-76). -/
def heliusSupportsMonitoring (apiKey : String) : Bool := isApiKeyValid apiKey

/-- `InfuraService.NETWORK_MAP` (infura-service.ts lines 75-108). -/
def infuraNetworkMap : List (Int × String) :=
  [(1, "mainnet"), (10, "optimism-mainnet"), (56, "bsc-mainnet"),
   (137, "polygon-mainnet"), (324, "zksync-mainnet"), (534352, "scroll-mainnet"),
   (5000, "mantle-mainnet"), (8453, "base-mainnet"), (42161, "arbitrum-mainnet"),
   (42220, "celo-mainnet"), (43114, "avalanche-mainnet"), (59144, "linea-mainnet"),
   (81457, "blast-mainnet"), (204, "opbnb-mainnet"), (11297108109, "palm-mainnet"),
   (11155111, "sepolia"), (421614, "arbitrum-sepolia"), (43113, "avalanche-fuji"),
   (84532, "base-sepolia"), (168587773, "blast-sepolia"), (97, "bsc-testnet"),
   (44787, "celo-alfajores"), (59141, "linea-sepolia"), (5003, "mantle-sepolia"),
   (5611, "opbnb-testnet"), (11155420, "optimism-sepolia"),
   (11297108099, "palm-testnet"), (80002, "polygon-amoy"),
   (534351, "scroll-sepolia"), (300, "zksync-sepolia")]

/-- Lookup in the network map. -/
def lookupNetwork : List (Int × String) → Int → Option String
  | [], _ => none
  | (c, n) :: rest, cid => if c = cid then some n else lookupNetwork rest cid

/-- `getInfuraNetworkName` (lines 113-119): throws for an unmapped chainId. -/
def getInfuraNetworkName (chainId : Int) : Except String String :=
  match lookupNetwork infuraNetworkMap chainId with
  | some n => Except.ok n
  | none => Except.error ("Infura network not supported for chainID: " ++ toString chainId)

/-- `InfuraService.getHttpUrl` (lines 36-39). -/
def infuraGetHttpUrl (apiKey : String) (chainId : Int) : Except String String :=
  match getInfuraNetworkName chainId with
  | Except.ok n => Except.ok ("https://" ++ n ++ ".infura.io/v3/" ++ apiKey)
  | Except.error msg => Except.error msg

/-- The `InfuraService` constructor (lines 23-31): rejects non-Ethereum chains,
then `initializeHttpProvider` resolves the HTTP URL (throwing for an unmapped
chainId). -/
def infuraConstruct (chain : String) (apiKey : String) (chainId : Int) :
    Except String Unit :=
  if chain != "ethereum" then
    Except.error "InfuraService only supports Ethereum networks"
  else
    match infuraGetHttpUrl apiKey chainId with
    | Except.ok _ => Except.ok ()
    | Except.error msg => Except.error msg

/-- The structural invariant of a `HeliusService` instance, preserved by every
event: the settlement log settles each waiter at most once, pending timers are
duplicate-free and belong to unsettled waiters, all ids ever issued are below
the id counter, and the idle timer is armed only with an empty table. -/
structure SvcInv (st : ServiceState) : Prop where
  nodupSettled : (settledKeys st).Nodup
  nodupTimers : st.timers.Nodup
  timersUnsettled : ∀ w ∈ st.timers, w ∉ settledKeys st
  timersLt : ∀ w ∈ st.timers, w < st.nextSubscriptionId
  subsLt : ∀ e ∈ st.subs, e.2.localId < st.nextSubscriptionId
  settledLt : ∀ w ∈ settledKeys st, w < st.nextSubscriptionId
  armedEmpty : st.idleArmed = true → st.subs = []

theorem mapGet_mem {m : List (Nat × SubEntry)} {k : Nat} {s : SubEntry}
    (h : mapGet m k = some s) : (k, s) ∈ m := by
  induction m with
  | nil => simp [mapGet] at h
  | cons e rest ih =>
    by_cases hk : e.1 = k
    · rw [mapGet, if_pos hk] at h
      obtain rfl : e.2 = s := Option.some.inj h
      subst hk
      exact List.mem_cons_self _ _
    · rw [mapGet, if_neg hk] at h
      exact List.mem_cons_of_mem _ (ih h)

theorem mem_mapDelete {m : List (Nat × SubEntry)} {k : Nat} {e : Nat × SubEntry} :
    e ∈ mapDelete m k ↔ e ∈ m ∧ e.1 ≠ k := by
  simp [mapDelete, List.mem_filter, bne_iff_ne]

theorem mapGet_mapDelete_self (m : List (Nat × SubEntry)) (k : Nat) :
    mapGet (mapDelete m k) k = none := by
  induction m with
  | nil => rfl
  | cons e rest ih =>
    by_cases hk : e.1 = k
    · simpa [mapDelete, List.filter_cons, hk] using ih
    · simpa [mapDelete, List.filter_cons, hk, mapGet] using ih

theorem mapGet_mapDelete_ne (m : List (Nat × SubEntry)) {k k' : Nat} (h : k' ≠ k) :
    mapGet (mapDelete m k) k' = mapGet m k' := by
  induction m with
  | nil => rfl
  | cons e rest ih =>
    by_cases hk : e.1 = k
    · have h2 : ¬ e.1 = k' := by rw [hk]; exact fun hh => h hh.symm
      rw [mapGet, if_neg h2]
      rw [show mapDelete (e :: rest) k = mapDelete rest k by
        simp [mapDelete, List.filter_cons, hk]]
      exact ih
    · have hcons : mapDelete (e :: rest) k = e :: mapDelete rest k := by
        simp [mapDelete, List.filter_cons, hk]
      rw [hcons]
      by_cases hk' : e.1 = k'
      · rw [mapGet, if_pos hk', mapGet, if_pos hk']
      · rw [mapGet, if_neg hk', mapGet, if_neg hk']
        exact ih

theorem mapGet_append (m l : List (Nat × SubEntry)) (k : Nat) :
    mapGet (m ++ l) k = match mapGet m k with
      | some v => some v
      | none => mapGet l k := by
  induction m with
  | nil => rfl
  | cons e rest ih =>
    by_cases hk : e.1 = k
    · simp [mapGet, hk]
    · simpa [mapGet, hk] using ih

theorem mapGet_map_replace_ne (m : List (Nat × SubEntry)) {k k' : Nat} (v : SubEntry)
    (h : k' ≠ k) :
    mapGet (m.map (fun e => if e.1 = k then (k, v) else e)) k' = mapGet m k' := by
  induction m with
  | nil => rfl
  | cons e rest ih =>
    rw [List.map_cons]
    by_cases hk : e.1 = k
    · have h1 : ¬ (k : Nat) = k' := fun hh => h hh.symm
      have h2 : ¬ e.1 = k' := by rw [hk]; exact h1
      rw [if_pos hk, mapGet, if_neg h1, mapGet, if_neg h2]
      exact ih
    · rw [if_neg hk]
      by_cases hk' : e.1 = k'
      · rw [mapGet, if_pos hk', mapGet, if_pos hk']
      · rw [mapGet, if_neg hk', mapGet, if_neg hk']
        exact ih

theorem mapGet_map_replace_self (m : List (Nat × SubEntry)) {k : Nat} (v : SubEntry)
    (hs : (mapGet m k).isSome) :
    mapGet (m.map (fun e => if e.1 = k then (k, v) else e)) k = some v := by
  induction m with
  | nil => simp [mapGet] at hs
  | cons e rest ih =>
    rw [List.map_cons]
    by_cases hk : e.1 = k
    · rw [if_pos hk, mapGet, if_pos rfl]
    · rw [mapGet, if_neg hk] at hs
      rw [if_neg hk, mapGet, if_neg hk]
      exact ih hs

theorem mapGet_mapSet_self (m : List (Nat × SubEntry)) (k : Nat) (v : SubEntry) :
    mapGet (mapSet m k v) k = some v := by
  unfold mapSet
  by_cases hs : (mapGet m k).isSome
  · rw [if_pos hs]
    exact mapGet_map_replace_self m v hs
  · rw [if_neg hs, mapGet_append]
    have hnone : mapGet m k = none := Option.not_isSome_iff_eq_none.mp hs
    simp [hnone, mapGet]

theorem mapGet_mapSet_ne (m : List (Nat × SubEntry)) {k k' : Nat} (v : SubEntry)
    (h : k' ≠ k) : mapGet (mapSet m k v) k' = mapGet m k' := by
  unfold mapSet
  by_cases hs : (mapGet m k).isSome
  · rw [if_pos hs]
    exact mapGet_map_replace_ne m v h
  · rw [if_neg hs, mapGet_append]
    cases hm : mapGet m k' with
    | some v' => simp
    | none =>
      have h1 : ¬ (k : Nat) = k' := fun hh => h hh.symm
      simp [mapGet, h1]

theorem mem_mapSet {m : List (Nat × SubEntry)} {k : Nat} {v : SubEntry}
    {e : Nat × SubEntry} (h : e ∈ mapSet m k v) : e ∈ m ∨ e = (k, v) := by
  unfold mapSet at h
  by_cases hs : (mapGet m k).isSome
  · rw [if_pos hs] at h
    rcases List.mem_map.mp h with ⟨a, ha, hfa⟩
    by_cases hk : a.1 = k
    · right; rw [← hfa, if_pos hk]
    · left; rw [← hfa, if_neg hk]; exact ha
  · rw [if_neg hs] at h
    rcases List.mem_append.mp h with h1 | h1
    · exact Or.inl h1
    · right; simpa using h1

@[simp] theorem settle_subs (st : ServiceState) (w : Nat) (k : SettleKind) :
    (settle st w k).subs = st.subs := by
  unfold settle; split <;> rfl

@[simp] theorem settle_timers (st : ServiceState) (w : Nat) (k : SettleKind) :
    (settle st w k).timers = st.timers := by
  unfold settle; split <;> rfl

@[simp] theorem settle_next (st : ServiceState) (w : Nat) (k : SettleKind) :
    (settle st w k).nextSubscriptionId = st.nextSubscriptionId := by
  unfold settle; split <;> rfl

@[simp] theorem settle_ws (st : ServiceState) (w : Nat) (k : SettleKind) :
    (settle st w k).ws = st.ws := by
  unfold settle; split <;> rfl

@[simp] theorem settle_armed (st : ServiceState) (w : Nat) (k : SettleKind) :
    (settle st w k).idleArmed = st.idleArmed := by
  unfold settle; split <;> rfl

theorem settledKeys_settle (st : ServiceState) (w : Nat) (k : SettleKind) :
    settledKeys (settle st w k) =
      if w ∈ settledKeys st then settledKeys st else settledKeys st ++ [w] := by
  unfold settle
  by_cases hmem : w ∈ settledKeys st
  · rw [if_pos hmem, if_pos hmem]
  · rw [if_neg hmem, if_neg hmem]
    simp [settledKeys]

theorem settle_settled_of_mem (st : ServiceState) {w : Nat} (k : SettleKind)
    (h : w ∈ settledKeys st) : settle st w k = st := by
  unfold settle; rw [if_pos h]

theorem settle_settled_of_not_mem (st : ServiceState) {w : Nat} (k : SettleKind)
    (h : w ∉ settledKeys st) : (settle st w k).settled = st.settled ++ [(w, k)] := by
  unfold settle; rw [if_neg h]

theorem settle_mem_self (st : ServiceState) {w : Nat} (k : SettleKind)
    (h : w ∉ settledKeys st) : (w, k) ∈ (settle st w k).settled := by
  rw [settle_settled_of_not_mem st k h]
  exact List.mem_append_right _ (List.mem_singleton.mpr rfl)

@[simp] theorem scheduleIdle_subs (st : ServiceState) :
    (scheduleIdleDisconnect st).subs = st.subs := by
  unfold scheduleIdleDisconnect; split <;> rfl

@[simp] theorem scheduleIdle_timers (st : ServiceState) :
    (scheduleIdleDisconnect st).timers = st.timers := by
  unfold scheduleIdleDisconnect; split <;> rfl

@[simp] theorem scheduleIdle_next (st : ServiceState) :
    (scheduleIdleDisconnect st).nextSubscriptionId = st.nextSubscriptionId := by
  unfold scheduleIdleDisconnect; split <;> rfl

@[simp] theorem scheduleIdle_ws (st : ServiceState) :
    (scheduleIdleDisconnect st).ws = st.ws := by
  unfold scheduleIdleDisconnect; split <;> rfl

@[simp] theorem scheduleIdle_settled (st : ServiceState) :
    (scheduleIdleDisconnect st).settled = st.settled := by
  unfold scheduleIdleDisconnect; split <;> rfl

theorem settledKeys_scheduleIdle (st : ServiceState) :
    settledKeys (scheduleIdleDisconnect st) = settledKeys st := by
  unfold settledKeys; rw [scheduleIdle_settled]

theorem settledKeys_update_subs_timers (st : ServiceState) (s' : List (Nat × SubEntry))
    (t' : List Nat) :
    settledKeys { st with subs := s', timers := t' } = settledKeys st := rfl

theorem svcInv_settle {st : ServiceState} (h : SvcInv st) {w : Nat} (k : SettleKind)
    (hw1 : w ∉ st.timers) (hw2 : w < st.nextSubscriptionId) : SvcInv (settle st w k) := by
  unfold settle
  by_cases hmem : w ∈ settledKeys st
  · rw [if_pos hmem]; exact h
  · rw [if_neg hmem]
    have hkeys : settledKeys { st with settled := st.settled ++ [(w, k)] }
        = settledKeys st ++ [w] := by simp [settledKeys]
    refine ⟨?_, h.nodupTimers, ?_, h.timersLt, h.subsLt, ?_, h.armedEmpty⟩
    · rw [hkeys]
      rw [List.nodup_append]
      refine ⟨h.nodupSettled, List.nodup_singleton w, ?_⟩
      intro a ha hb
      rcases List.mem_singleton.mp hb with rfl
      exact hmem ha
    · intro t ht
      rw [hkeys]
      intro hmem2
      rcases List.mem_append.mp hmem2 with h1 | h1
      · exact h.timersUnsettled t ht h1
      · rcases List.mem_singleton.mp h1 with rfl
        exact hw1 ht
    · intro a ha
      rw [hkeys] at ha
      rcases List.mem_append.mp ha with h1 | h1
      · exact h.settledLt a h1
      · rcases List.mem_singleton.mp h1 with rfl
        exact hw2

theorem svcInv_scheduleIdle {st : ServiceState} (h : SvcInv st) :
    SvcInv (scheduleIdleDisconnect st) := by
  unfold scheduleIdleDisconnect
  split
  · exact h
  · refine ⟨h.nodupSettled, h.nodupTimers, h.timersUnsettled, h.timersLt, h.subsLt,
      h.settledLt, ?_⟩
    intro _
    have hlen : st.subs.length = 0 := by omega
    exact List.length_eq_zero.mp hlen

theorem svcInv_cancelIdle {st : ServiceState} (h : SvcInv st) :
    SvcInv (cancelIdleTimeout st) :=
  ⟨h.nodupSettled, h.nodupTimers, h.timersUnsettled, h.timersLt, h.subsLt,
    h.settledLt, fun hh => by simp [cancelIdleTimeout] at hh⟩

theorem svcInv_erase_delete {st : ServiceState} (h : SvcInv st) (l k : Nat) :
    SvcInv { st with timers := st.timers.erase l, subs := mapDelete st.subs k } := by
  refine ⟨h.nodupSettled, h.nodupTimers.erase l, ?_, ?_, ?_, h.settledLt, ?_⟩
  · intro t ht
    exact h.timersUnsettled t (List.mem_of_mem_erase ht)
  · intro t ht
    exact h.timersLt t (List.mem_of_mem_erase ht)
  · intro e he
    exact h.subsLt e (mem_mapDelete.mp he).1
  · intro ha
    have hs : st.subs = [] := h.armedEmpty ha
    simp [hs, mapDelete]

theorem svcInv_delete_subs {st : ServiceState} (h : SvcInv st) (k : Nat) :
    SvcInv { st with subs := mapDelete st.subs k } := by
  refine ⟨h.nodupSettled, h.nodupTimers, h.timersUnsettled, h.timersLt, ?_, h.settledLt, ?_⟩
  · intro e he
    exact h.subsLt e (mem_mapDelete.mp he).1
  · intro ha
    have hs : st.subs = [] := h.armedEmpty ha
    simp [hs, mapDelete]

theorem svcInv_resolveWithCleanup {st : ServiceState} (h : SvcInv st) {w : Nat}
    (r : TxMonitorResult) (hw1 : w ∉ st.timers) (hw2 : w < st.nextSubscriptionId) :
    SvcInv (resolveWithCleanup st w r) := by
  unfold resolveWithCleanup
  refine svcInv_settle (svcInv_scheduleIdle (svcInv_delete_subs h w)) _ ?_ ?_
  · rw [scheduleIdle_timers]; exact hw1
  · rw [scheduleIdle_next]; exact hw2

theorem svcInv_rejectWithCleanup {st : ServiceState} (h : SvcInv st) {w : Nat}
    (msg : String) (hw1 : w ∉ st.timers) (hw2 : w < st.nextSubscriptionId) :
    SvcInv (rejectWithCleanup st w msg) := by
  unfold rejectWithCleanup
  refine svcInv_settle (svcInv_scheduleIdle (svcInv_delete_subs h w)) _ ?_ ?_
  · rw [scheduleIdle_timers]; exact hw1
  · rw [scheduleIdle_next]; exact hw2

theorem svcInv_doSubscribe {st : ServiceState} (h : SvcInv st) (sig : String) :
    SvcInv (doSubscribe st sig) := by
  unfold doSubscribe
  split
  · refine ⟨h.nodupSettled, ?_, ?_, ?_, ?_, ?_, ?_⟩
    · rw [List.nodup_append]
      refine ⟨h.nodupTimers, List.nodup_singleton _, ?_⟩
      intro a ha hb
      rcases List.mem_singleton.mp hb with rfl
      exact absurd (h.timersLt _ ha) (Nat.lt_irrefl _)
    · intro t ht
      rcases List.mem_append.mp ht with h1 | h1
      · exact h.timersUnsettled t h1
      · rcases List.mem_singleton.mp h1 with rfl
        intro hmem
        exact absurd (h.settledLt _ hmem) (Nat.lt_irrefl _)
    · intro t ht
      rcases List.mem_append.mp ht with h1 | h1
      · exact Nat.lt_trans (h.timersLt t h1) (Nat.lt_succ_self _)
      · rcases List.mem_singleton.mp h1 with rfl
        exact Nat.lt_succ_self _
    · intro e he
      rcases mem_mapSet he with h1 | h1
      · exact Nat.lt_trans (h.subsLt e h1) (Nat.lt_succ_self _)
      · rw [h1]
        exact Nat.lt_succ_self _
    · intro a ha
      exact Nat.lt_trans (h.settledLt a ha) (Nat.lt_succ_self _)
    · intro hh
      simp at hh
  · exact h

theorem svcInv_doTimeoutFire {st : ServiceState} (h : SvcInv st) (l : Nat) :
    SvcInv (doTimeoutFire st l) := by
  unfold doTimeoutFire
  split
  · rename_i hmem
    have h1 := svcInv_erase_delete h l l
    refine svcInv_settle (svcInv_scheduleIdle h1) _ ?_ ?_
    · rw [scheduleIdle_timers]
      intro hc
      exact ((h.nodupTimers.mem_erase_iff).mp hc).1 rfl
    · rw [scheduleIdle_next]
      exact h.timersLt l hmem
  · exact h

theorem svcInv_handleNotification {st : ServiceState} (h : SvcInv st) (p : NotifParams) :
    SvcInv (handleNotification st p) := by
  unfold handleNotification
  cases hget : mapGet st.subs p.subscription with
  | none => exact h
  | some sub =>
    have hlt : sub.localId < st.nextSubscriptionId :=
      h.subsLt (p.subscription, sub) (mapGet_mem hget)
    have h1 := svcInv_erase_delete h sub.localId p.subscription
    refine svcInv_resolveWithCleanup h1 _ ?_ ?_
    · intro hc
      exact ((h.nodupTimers.mem_erase_iff).mp hc).1 rfl
    · exact hlt

theorem svcInv_handleAck {st : ServiceState} (h : SvcInv st) (localId serverId : Nat) :
    SvcInv (handleAck st localId serverId) := by
  unfold handleAck
  cases hget : mapGet st.subs localId with
  | none => exact h
  | some sub =>
    have hlt : sub.localId < st.nextSubscriptionId :=
      h.subsLt (localId, sub) (mapGet_mem hget)
    refine ⟨h.nodupSettled, h.nodupTimers, h.timersUnsettled, h.timersLt, ?_,
      h.settledLt, ?_⟩
    · intro e he
      rcases mem_mapSet he with h1 | h1
      · exact h.subsLt e (mem_mapDelete.mp h1).1
      · rw [h1]; exact hlt
    · intro ha
      have hs : st.subs = [] := h.armedEmpty ha
      rw [hs] at hget
      simp [mapGet] at hget

theorem svcInv_handleErrorFrame {st : ServiceState} (h : SvcInv st) (e : JVal)
    (mid : Option Nat) : SvcInv (handleErrorFrame st e mid) := by
  unfold handleErrorFrame
  by_cases htr : jsTruthy e = true
  · rw [if_pos htr]
    split
    · exact h
    · split
      · exact h
      · rename_i i
        split
        · exact h
        · rename_i sub hget
          have hlt : sub.localId < st.nextSubscriptionId :=
            h.subsLt (i, sub) (mapGet_mem hget)
          have h1 := svcInv_erase_delete h sub.localId i
          refine svcInv_rejectWithCleanup h1 _ ?_ ?_
          · intro hc
            exact ((h.nodupTimers.mem_erase_iff).mp hc).1 rfl
          · exact hlt
    · exact h
  · rw [if_neg htr]
    exact h

theorem svcInv_handleTail {st : ServiceState} (h : SvcInv st) (m : WsMessage) :
    SvcInv (handleTail st m) := by
  obtain ⟨mm, mp, mr, mi, me⟩ := m
  unfold handleTail
  cases mr with
  | some r =>
    cases mi with
    | some i => exact svcInv_handleAck h i r
    | none =>
      cases me with
      | some e => exact svcInv_handleErrorFrame h e none
      | none => exact h
  | none =>
    cases mi with
    | some i =>
      cases me with
      | some e => exact svcInv_handleErrorFrame h e (some i)
      | none => exact h
    | none =>
      cases me with
      | some e => exact svcInv_handleErrorFrame h e none
      | none => exact h

theorem svcInv_handleWebSocketMessage {st : ServiceState} (h : SvcInv st)
    (m : WsMessage) : SvcInv (handleWebSocketMessage st m) := by
  obtain ⟨mm, mp, mr, mi, me⟩ := m
  unfold handleWebSocketMessage
  cases mp with
  | some p =>
    show SvcInv (if mm = some "signatureNotification" then handleNotification st p
      else handleTail st ⟨mm, some p, mr, mi, me⟩)
    by_cases hm : mm = some "signatureNotification"
    · rw [if_pos hm]
      exact svcInv_handleNotification h p
    · rw [if_neg hm]
      exact svcInv_handleTail h ⟨mm, some p, mr, mi, me⟩
  | none => exact svcInv_handleTail h ⟨mm, none, mr, mi, me⟩

theorem svcInv_rejectAllLoop (entries : List (Nat × SubEntry)) (msg : String) :
    ∀ st : ServiceState, SvcInv st → SvcInv (rejectAllLoop entries st msg) := by
  induction entries with
  | nil => intro st h; exact h
  | cons e rest ih =>
    intro st h
    rw [rejectAllLoop]
    cases hget : mapGet st.subs e.1 with
    | none => exact ih st h
    | some sub =>
      have hlt : sub.localId < st.nextSubscriptionId :=
        h.subsLt (e.1, sub) (mapGet_mem hget)
      have h1 : SvcInv { st with timers := st.timers.erase sub.localId } :=
        ⟨h.nodupSettled, h.nodupTimers.erase _,
          fun t ht => h.timersUnsettled t (List.mem_of_mem_erase ht),
          fun t ht => h.timersLt t (List.mem_of_mem_erase ht),
          h.subsLt, h.settledLt, h.armedEmpty⟩
      refine ih _ (svcInv_rejectWithCleanup h1 _ ?_ ?_)
      · intro hc
        exact ((h.nodupTimers.mem_erase_iff).mp hc).1 rfl
      · exact hlt

theorem svcInv_doWsClose {st : ServiceState} (h : SvcInv st) : SvcInv (doWsClose st) := by
  unfold doWsClose
  have h0 : SvcInv { st with ws := false } :=
    ⟨h.nodupSettled, h.nodupTimers, h.timersUnsettled, h.timersLt, h.subsLt,
      h.settledLt, h.armedEmpty⟩
  have h1 := svcInv_rejectAllLoop st.subs "WebSocket disconnected" _ h0
  refine svcInv_cancelIdle ⟨h1.nodupSettled, h1.nodupTimers, h1.timersUnsettled,
    h1.timersLt, ?_, h1.settledLt, ?_⟩
  · intro e he
    simp at he
  · intro _
    rfl

theorem svcInv_doDisconnect {st : ServiceState} (h : SvcInv st) :
    SvcInv (doDisconnect st) := by
  unfold doDisconnect
  have h1 := svcInv_rejectAllLoop st.subs "Service disconnected" _ (svcInv_cancelIdle h)
  exact ⟨h1.nodupSettled, h1.nodupTimers, h1.timersUnsettled, h1.timersLt,
    fun e he => by simp at he, h1.settledLt, fun _ => rfl⟩

theorem svcInv_doIdleFire {st : ServiceState} (h : SvcInv st) : SvcInv (doIdleFire st) := by
  unfold doIdleFire
  split
  · split
    · exact ⟨h.nodupSettled, h.nodupTimers, h.timersUnsettled, h.timersLt, h.subsLt,
        h.settledLt, fun hh => by simp at hh⟩
    · exact ⟨h.nodupSettled, h.nodupTimers, h.timersUnsettled, h.timersLt, h.subsLt,
        h.settledLt, fun hh => by simp at hh⟩
  · exact h

theorem svcInv_step {st : ServiceState} (h : SvcInv st) (ev : HEvent) :
    SvcInv (step st ev) := by
  cases ev with
  | subscribe sig => exact svcInv_doSubscribe h sig
  | timeoutFire l => exact svcInv_doTimeoutFire h l
  | message m => exact svcInv_handleWebSocketMessage h m
  | malformedFrame => exact h
  | wsClose => exact svcInv_doWsClose h
  | serviceDisconnect => exact svcInv_doDisconnect h
  | idleFire => exact svcInv_doIdleFire h

theorem svcInv_initState : SvcInv initState := by
  refine ⟨?_, ?_, ?_, ?_, ?_, ?_, ?_⟩ <;> simp [initState, settledKeys]

theorem svcInv_foldl (l : List HEvent) :
    ∀ st : ServiceState, SvcInv st → SvcInv (l.foldl step st) := by
  induction l with
  | nil => intro st h; exact h
  | cons ev rest ih =>
    intro st h
    exact ih _ (svcInv_step h ev)

theorem svcInv_run (events : List HEvent) : SvcInv (run events) :=
  svcInv_foldl events initState svcInv_initState

@[simp] theorem rejectWithCleanup_timers (st : ServiceState) (w : Nat) (msg : String) :
    (rejectWithCleanup st w msg).timers = st.timers := by
  unfold rejectWithCleanup
  rw [settle_timers, scheduleIdle_timers]

@[simp] theorem rejectWithCleanup_ws (st : ServiceState) (w : Nat) (msg : String) :
    (rejectWithCleanup st w msg).ws = st.ws := by
  unfold rejectWithCleanup
  rw [settle_ws, scheduleIdle_ws]

@[simp] theorem rejectWithCleanup_subs (st : ServiceState) (w : Nat) (msg : String) :
    (rejectWithCleanup st w msg).subs = mapDelete st.subs w := by
  unfold rejectWithCleanup
  rw [settle_subs, scheduleIdle_subs]

theorem settle_settled_mono (st : ServiceState) (w : Nat) (k : SettleKind)
    {x : Nat × SettleKind} (hx : x ∈ st.settled) : x ∈ (settle st w k).settled := by
  unfold settle
  split
  · exact hx
  · exact List.mem_append_left _ hx

theorem rejectWithCleanup_settled_mono (st : ServiceState) (w : Nat) (msg : String)
    {x : Nat × SettleKind} (hx : x ∈ st.settled) :
    x ∈ (rejectWithCleanup st w msg).settled := by
  unfold rejectWithCleanup
  apply settle_settled_mono
  rw [scheduleIdle_settled]
  exact hx

theorem rejectWithCleanup_settled_of_not_mem {st : ServiceState} {w : Nat} (msg : String)
    (h : w ∉ settledKeys st) :
    (rejectWithCleanup st w msg).settled = st.settled ++ [(w, SettleKind.rejected msg)] := by
  unfold rejectWithCleanup
  have hkey : w ∉ settledKeys (scheduleIdleDisconnect { st with subs := mapDelete st.subs w }) := by
    rw [settledKeys_scheduleIdle]
    exact h
  rw [settle_settled_of_not_mem _ _ hkey, scheduleIdle_settled]

theorem rejectAllLoop_timers_subset (msg : String) :
    ∀ (entries : List (Nat × SubEntry)) (st : ServiceState) (x : Nat),
      x ∈ (rejectAllLoop entries st msg).timers → x ∈ st.timers := by
  intro entries
  induction entries with
  | nil => intro st x hx; exact hx
  | cons e rest ih =>
    intro st x hx
    rw [rejectAllLoop] at hx
    cases hget : mapGet st.subs e.1 with
    | none =>
      rw [hget] at hx
      exact ih st x hx
    | some sub =>
      rw [hget] at hx
      have h1 := ih _ x hx
      rw [rejectWithCleanup_timers] at h1
      exact List.mem_of_mem_erase h1

theorem rejectAllLoop_settled_mono (msg : String) :
    ∀ (entries : List (Nat × SubEntry)) (st : ServiceState) (x : Nat × SettleKind),
      x ∈ st.settled → x ∈ (rejectAllLoop entries st msg).settled := by
  intro entries
  induction entries with
  | nil => intro st x hx; exact hx
  | cons e rest ih =>
    intro st x hx
    rw [rejectAllLoop]
    cases hget : mapGet st.subs e.1 with
    | none => exact ih st x hx
    | some sub =>
      refine ih _ x ?_
      apply rejectWithCleanup_settled_mono
      exact hx

theorem rejectAllLoop_ws (msg : String) :
    ∀ (entries : List (Nat × SubEntry)) (st : ServiceState),
      (rejectAllLoop entries st msg).ws = st.ws := by
  intro entries
  induction entries with
  | nil => intro st; rfl
  | cons e rest ih =>
    intro st
    rw [rejectAllLoop]
    cases hget : mapGet st.subs e.1 with
    | none => exact ih st
    | some sub =>
      rw [ih]
      rw [rejectWithCleanup_ws]

theorem rejectAllLoop_flushes (msg : String) :
    ∀ (entries : List (Nat × SubEntry)) (st : ServiceState),
      (∀ e ∈ entries, mapGet st.subs e.1 = some e.2) →
      entries.Pairwise (fun a b => a.2.localId ≠ b.1) →
      (entries.map (fun e => e.2.localId)).Nodup →
      st.timers.Nodup →
      (∀ e ∈ entries, e.2.localId ∉ settledKeys st) →
      ∀ e ∈ entries,
        e.2.localId ∉ (rejectAllLoop entries st msg).timers ∧
        (e.2.localId, SettleKind.rejected msg) ∈ (rejectAllLoop entries st msg).settled := by
  intro entries
  induction entries with
  | nil =>
    intro st _ _ _ _ _ e he
    exact absurd he (List.not_mem_nil e)
  | cons hd rest ih =>
    rcases hd with ⟨k, s⟩
    intro st hpres hpair hloc htnd huns e he
    have hget : mapGet st.subs k = some s :=
      hpres (k, s) (List.mem_cons_self (k, s) rest)
    have hpair1 : ∀ b ∈ rest, s.localId ≠ b.1 := by
      intro b hb
      exact (List.pairwise_cons.mp hpair).1 b hb
    have hpair2 : rest.Pairwise (fun a b => a.2.localId ≠ b.1) :=
      (List.pairwise_cons.mp hpair).2
    have hloc' := hloc
    rw [List.map_cons, List.nodup_cons] at hloc'
    have hunhd : s.localId ∉ settledKeys st :=
      huns (k, s) (List.mem_cons_self (k, s) rest)
    have hbody : rejectAllLoop ((k, s) :: rest) st msg =
        rejectAllLoop rest
          (rejectWithCleanup { st with timers := st.timers.erase s.localId }
            s.localId msg) msg := by
      rw [rejectAllLoop, hget]
    have hA1 : s.localId ∉ settledKeys { st with timers := st.timers.erase s.localId } :=
      hunhd
    have hsettled2 : (rejectWithCleanup { st with timers := st.timers.erase s.localId }
        s.localId msg).settled = st.settled ++ [(s.localId, SettleKind.rejected msg)] := by
      rw [rejectWithCleanup_settled_of_not_mem msg hA1]
    have htimers2 : (rejectWithCleanup { st with timers := st.timers.erase s.localId }
        s.localId msg).timers = st.timers.erase s.localId := by
      rw [rejectWithCleanup_timers]
    have hsubs2 : (rejectWithCleanup { st with timers := st.timers.erase s.localId }
        s.localId msg).subs = mapDelete st.subs s.localId := by
      rw [rejectWithCleanup_subs]
    have hkeys2 : settledKeys (rejectWithCleanup { st with timers := st.timers.erase s.localId }
        s.localId msg) = settledKeys st ++ [s.localId] := by
      unfold settledKeys
      rw [hsettled2, List.map_append]
      rfl
    rcases List.mem_cons.mp he with heq | hrest
    · rw [heq, hbody]
      constructor
      · intro hc
        have h1 := rejectAllLoop_timers_subset msg rest _ _ hc
        rw [htimers2] at h1
        exact (htnd.mem_erase_iff.mp h1).1 rfl
      · refine rejectAllLoop_settled_mono msg rest _ _ ?_
        rw [hsettled2]
        exact List.mem_append_right _ (List.mem_singleton.mpr rfl)
    · rw [hbody]
      refine ih _ ?_ hpair2 hloc'.2 ?_ ?_ e hrest
      · intro f hf
        rw [hsubs2]
        rw [mapGet_mapDelete_ne st.subs (fun hc => hpair1 f hf hc.symm)]
        exact hpres f (List.mem_cons_of_mem _ hf)
      · rw [htimers2]
        exact htnd.erase _
      · intro f hf
        rw [hkeys2]
        intro hc
        rcases List.mem_append.mp hc with h1 | h1
        · exact huns f (List.mem_cons_of_mem _ hf) h1
        · rcases List.mem_singleton.mp h1 with heq2
          apply hloc'.1
          rw [← heq2]
          exact List.mem_map_of_mem _ hf

theorem filter_key_length_le_one (l : List (Nat × SettleKind)) (w : Nat)
    (h : (l.map Prod.fst).Nodup) : (l.filter (fun e => e.1 == w)).length ≤ 1 := by
  induction l with
  | nil => simp
  | cons e rest ih =>
    rw [List.map_cons, List.nodup_cons] at h
    rw [List.filter_cons]
    by_cases hk : e.1 = w
    · rw [if_pos (by simpa using hk)]
      have hnil : rest.filter (fun a => a.1 == w) = [] := by
        rw [List.filter_eq_nil_iff]
        intro a ha hc
        apply h.1
        rw [hk, ← (by simpa using hc : a.1 = w)]
        exact List.mem_map_of_mem _ ha
      rw [hnil]
      simp
    · rw [if_neg (by simpa using hk)]
      exact ih h.2

theorem handleNotification_unmatched {st : ServiceState} {p : NotifParams}
    (h : mapGet st.subs p.subscription = none) : handleNotification st p = st := by
  unfold handleNotification
  rw [h]

theorem handleMessage_notif (st : ServiceState) (s : Nat) (payload : JVal) :
    handleWebSocketMessage st (notifMessage s payload) = handleNotification st ⟨payload, s⟩ := rfl

theorem handleMessage_ack (st : ServiceState) (i r : Nat) :
    handleWebSocketMessage st (ackMessage i r) = handleAck st i r := rfl

theorem handleMessage_err (st : ServiceState) (mid : Option Nat) (e : JVal) :
    handleWebSocketMessage st ⟨none, none, none, mid, some e⟩ = handleErrorFrame st e mid := rfl

theorem handleAck_unmatched {st : ServiceState} {i : Nat} (r : Nat)
    (h : mapGet st.subs i = none) : handleAck st i r = st := by
  unfold handleAck
  rw [h]

/-- C1: over every sequence of inbound frames and timer firings, each
`monitorTransaction` promise is settled at most once (the settlement log keeps
at most one entry per waiter); a notification whose subscription id matches no
table entry — in particular a duplicate arriving after the subscription has
been resolved and removed — leaves the whole service state unchanged; and
whenever a countdown timer is still pending, its firing does settle the waiter
(resolving `confirmed:false`), so each subscription settles exactly once. -/
theorem monitor_settles_at_most_once :
    (∀ (events : List HEvent) (w : Nat),
      ((run events).settled.filter (fun e => e.1 == w)).length ≤ 1) ∧
    (∀ (st : ServiceState) (s : Nat) (payload : JVal),
      mapGet st.subs s = none →
      handleWebSocketMessage st (notifMessage s payload) = st) ∧
    (∀ (events : List HEvent) (l : Nat),
      l ∈ (run events).timers →
      (l, SettleKind.resolved ⟨false, none⟩)
        ∈ (step (run events) (HEvent.timeoutFire l)).settled) := by
  refine ⟨?_, ?_, ?_⟩
  · intro events w
    exact filter_key_length_le_one _ w (svcInv_run events).nodupSettled
  · intro st s payload hnone
    rw [handleMessage_notif]
    exact handleNotification_unmatched hnone
  · intro events l hl
    show (l, SettleKind.resolved ⟨false, none⟩) ∈ (doTimeoutFire (run events) l).settled
    unfold doTimeoutFire
    rw [if_pos hl]
    have hnot : l ∉ settledKeys (run events) :=
      (svcInv_run events).timersUnsettled l hl
    apply settle_mem_self
    rw [settledKeys_scheduleIdle]
    exact hnot

theorem monitor_settles_at_most_once_witness :
    (((run [HEvent.subscribe "sig"]).settled.filter (fun e => e.1 == 1)).length ≤ 1) ∧
    (handleWebSocketMessage initState (notifMessage 5 JVal.null) = initState) ∧
    ((1, SettleKind.resolved ⟨false, none⟩)
      ∈ (step (run [HEvent.subscribe "sig"]) (HEvent.timeoutFire 1)).settled) :=
  ⟨monitor_settles_at_most_once.1 [HEvent.subscribe "sig"] 1,
   monitor_settles_at_most_once.2.1 initState 5 JVal.null rfl,
   monitor_settles_at_most_once.2.2 [HEvent.subscribe "sig"] 1 (by decide)⟩

/-- C2 (code_bug evidence): a subscription whose key was remapped by an
acknowledgment (local id 1 to server id 7) and whose timeout then fires is NOT
removed from the table — the timeout callback deletes the captured local id,
which is no longer the entry's key — although the promise does resolve with
`confirmed:false` and no details; the stale entry also keeps the idle
disconnect from ever being armed. -/
theorem timeout_after_remap_keeps_entry :
    (run [HEvent.subscribe "sig", HEvent.message (ackMessage 1 7),
        HEvent.timeoutFire 1]).subs = [(7, ⟨"sig", 1⟩)] ∧
    (run [HEvent.subscribe "sig", HEvent.message (ackMessage 1 7),
        HEvent.timeoutFire 1]).settled = [(1, SettleKind.resolved ⟨false, none⟩)] ∧
    (run [HEvent.subscribe "sig", HEvent.message (ackMessage 1 7),
        HEvent.timeoutFire 1]).idleArmed = false :=
  ⟨rfl, rfl, rfl⟩

/-- C4 (amended): on a transport close or an explicit `disconnect()`, provided
no live entry's captured local id collides with another live entry's key (true
whenever server-assigned ids do not collide with local ids), every outstanding
subscription has its countdown timer cleared and its waiter rejected with the
respective disconnect error, and the table is empty afterwards. -/
theorem close_and_disconnect_flush (st : ServiceState)
    (hcross : st.subs.Pairwise (fun a b => a.2.localId ≠ b.1))
    (hloc : (st.subs.map (fun e => e.2.localId)).Nodup)
    (hkeys : ∀ e ∈ st.subs, mapGet st.subs e.1 = some e.2)
    (htnd : st.timers.Nodup)
    (huns : ∀ e ∈ st.subs, e.2.localId ∉ settledKeys st) :
    ((doWsClose st).subs = [] ∧ (doWsClose st).idleArmed = false ∧
      (doWsClose st).ws = false ∧
      ∀ e ∈ st.subs, e.2.localId ∉ (doWsClose st).timers ∧
        (e.2.localId, SettleKind.rejected "WebSocket disconnected")
          ∈ (doWsClose st).settled) ∧
    ((doDisconnect st).subs = [] ∧ (doDisconnect st).ws = false ∧
      ∀ e ∈ st.subs, e.2.localId ∉ (doDisconnect st).timers ∧
        (e.2.localId, SettleKind.rejected "Service disconnected")
          ∈ (doDisconnect st).settled) := by
  have hcw := rejectAllLoop_flushes "WebSocket disconnected" st.subs
    { st with ws := false } hkeys hcross hloc htnd huns
  have hdd := rejectAllLoop_flushes "Service disconnected" st.subs
    (cancelIdleTimeout st) hkeys hcross hloc htnd huns
  refine ⟨⟨rfl, rfl, ?_, ?_⟩, rfl, rfl, ?_⟩
  · show (rejectAllLoop st.subs { st with ws := false } "WebSocket disconnected").ws = false
    rw [rejectAllLoop_ws]
  · intro e he
    exact hcw e he
  · intro e he
    exact hdd e he

theorem close_and_disconnect_flush_witness :
    ((doWsClose (run [HEvent.subscribe "a", HEvent.subscribe "b"])).subs = [] ∧
      (doWsClose (run [HEvent.subscribe "a", HEvent.subscribe "b"])).idleArmed = false ∧
      (doWsClose (run [HEvent.subscribe "a", HEvent.subscribe "b"])).ws = false ∧
      ∀ e ∈ (run [HEvent.subscribe "a", HEvent.subscribe "b"]).subs,
        e.2.localId ∉ (doWsClose (run [HEvent.subscribe "a", HEvent.subscribe "b"])).timers ∧
        (e.2.localId, SettleKind.rejected "WebSocket disconnected")
          ∈ (doWsClose (run [HEvent.subscribe "a", HEvent.subscribe "b"])).settled) ∧
    ((doDisconnect (run [HEvent.subscribe "a", HEvent.subscribe "b"])).subs = [] ∧
      (doDisconnect (run [HEvent.subscribe "a", HEvent.subscribe "b"])).ws = false ∧
      ∀ e ∈ (run [HEvent.subscribe "a", HEvent.subscribe "b"]).subs,
        e.2.localId ∉ (doDisconnect (run [HEvent.subscribe "a", HEvent.subscribe "b"])).timers ∧
        (e.2.localId, SettleKind.rejected "Service disconnected")
          ∈ (doDisconnect (run [HEvent.subscribe "a", HEvent.subscribe "b"])).settled) :=
  close_and_disconnect_flush (run [HEvent.subscribe "a", HEvent.subscribe "b"])
    (by decide) (by decide) (by decide) (by decide) (by decide)

/-- C4 (counterexample): the claim fails as stated.  With two subscriptions
both remapped (local 1 to server 7, then local 2 to server 1), the first
entry's `rejectWithCleanup` during `disconnect()` deletes key 1 — the second
subscription's current key — so the second waiter (local id 2) is skipped by
the rejection loop: after `disconnect()` it is still unsettled and its
countdown timer is still pending, though before `disconnect()` it was a
tracked, unsettled subscription. -/
theorem disconnect_drops_remapped_sibling :
    mapGet (run [HEvent.subscribe "sigA", HEvent.message (ackMessage 1 7),
        HEvent.subscribe "sigB", HEvent.message (ackMessage 2 1)]).subs 1
      = some ⟨"sigB", 2⟩ ∧
    (run [HEvent.subscribe "sigA", HEvent.message (ackMessage 1 7),
        HEvent.subscribe "sigB", HEvent.message (ackMessage 2 1),
        HEvent.serviceDisconnect]).subs = [] ∧
    settledKeys (run [HEvent.subscribe "sigA", HEvent.message (ackMessage 1 7),
        HEvent.subscribe "sigB", HEvent.message (ackMessage 2 1),
        HEvent.serviceDisconnect]) = [1] ∧
    2 ∈ (run [HEvent.subscribe "sigA", HEvent.message (ackMessage 1 7),
        HEvent.subscribe "sigB", HEvent.message (ackMessage 2 1),
        HEvent.serviceDisconnect]).timers :=
  ⟨rfl, rfl, rfl, by decide⟩

/-- C7 (counterexample): the claimed iff — armed exactly when the table is
empty AND a connection is open — fails: after `disconnect()` with a pending
subscription, `rejectWithCleanup` re-arms the idle timer once the table
empties, and the socket is then closed, leaving the timer armed with no open
connection. -/
theorem idle_timer_armed_without_connection :
    (run [HEvent.subscribe "sig", HEvent.serviceDisconnect]).idleArmed = true ∧
    (run [HEvent.subscribe "sig", HEvent.serviceDisconnect]).ws = false ∧
    (run [HEvent.subscribe "sig", HEvent.serviceDisconnect]).subs = [] :=
  ⟨rfl, rfl, rfl⟩

theorem handleNotification_matched {st : ServiceState} {p : NotifParams} {sub : SubEntry}
    (hget : mapGet st.subs p.subscription = some sub) :
    handleNotification st p = resolveWithCleanup
      { st with
        timers := st.timers.erase sub.localId,
        subs := mapDelete st.subs p.subscription }
      sub.localId
      (if notifFailure p.result then ⟨false, some p.result⟩ else ⟨true, some p.result⟩) := by
  unfold handleNotification
  rw [hget]

theorem handleErrorFrame_unmatched {st : ServiceState} (e : JVal) (mid : Option Nat)
    (hnone : ∀ i, mid = some i → mapGet st.subs i = none) :
    handleErrorFrame st e mid = st := by
  unfold handleErrorFrame
  by_cases htr : jsTruthy e = true
  · rw [if_pos htr]
    split
    · rfl
    · split
      · rfl
      · rename_i i
        split
        · rfl
        · rename_i sub hget
          rw [hnone i rfl] at hget
          cases hget
    · rfl
  · rw [if_neg htr]

theorem handleErrorFrame_matched {st : ServiceState} {i : Nat} {sub : SubEntry} {e : JVal}
    (htr : jsTruthy e = true) (hnb : benignCheck e = BenignCheck.proceed)
    (hget : mapGet st.subs i = some sub) :
    handleErrorFrame st e (some i) = rejectWithCleanup
      { st with
        timers := st.timers.erase sub.localId,
        subs := mapDelete st.subs i }
      sub.localId ("WebSocket error: " ++ errMessageText e) := by
  unfold handleErrorFrame
  rw [if_pos htr, hnb]
  show (match mapGet st.subs i with
    | none => st
    | some sub =>
      rejectWithCleanup
        { st with
          timers := st.timers.erase sub.localId,
          subs := mapDelete st.subs i }
        sub.localId ("WebSocket error: " ++ errMessageText e)) = _
  rw [hget]

@[simp] theorem resolveWithCleanup_timers (st : ServiceState) (w : Nat) (r : TxMonitorResult) :
    (resolveWithCleanup st w r).timers = st.timers := by
  unfold resolveWithCleanup
  rw [settle_timers, scheduleIdle_timers]

@[simp] theorem resolveWithCleanup_subs (st : ServiceState) (w : Nat) (r : TxMonitorResult) :
    (resolveWithCleanup st w r).subs = mapDelete st.subs w := by
  unfold resolveWithCleanup
  rw [settle_subs, scheduleIdle_subs]

theorem resolveWithCleanup_settled_of_not_mem {st : ServiceState} {w : Nat}
    (r : TxMonitorResult) (h : w ∉ settledKeys st) :
    (resolveWithCleanup st w r).settled = st.settled ++ [(w, SettleKind.resolved r)] := by
  unfold resolveWithCleanup
  have hkey : w ∉ settledKeys (scheduleIdleDisconnect { st with subs := mapDelete st.subs w }) := by
    rw [settledKeys_scheduleIdle]
    exact h
  rw [settle_settled_of_not_mem _ _ hkey, scheduleIdle_settled]

theorem notif_settles {st : ServiceState} {sid : Nat} {sub : SubEntry} (payload : JVal)
    (hget : mapGet st.subs sid = some sub)
    (huns : sub.localId ∉ settledKeys st) :
    (handleWebSocketMessage st (notifMessage sid payload)).settled
      = st.settled ++ [(sub.localId, SettleKind.resolved
          (if notifFailure payload then ⟨false, some payload⟩ else ⟨true, some payload⟩))] := by
  rw [handleMessage_notif]
  rw [@handleNotification_matched st ⟨payload, sid⟩ sub hget]
  have huns2 : sub.localId ∉ settledKeys
      { st with
        timers := st.timers.erase sub.localId,
        subs := mapDelete st.subs ((⟨payload, sid⟩ : NotifParams).subscription) } := huns
  rw [resolveWithCleanup_settled_of_not_mem _ huns2]

/-- C3: an acknowledgment frame (numeric result `R`, id equal to tracked local
id `L`) moves the subscription's table key from `L` to `R`: it is afterwards
addressable at `R` and (when `L ≠ R`) no longer at `L`.  A subsequent
notification with `subscription = R` and `value.err = null` resolves the
waiter with `confirmed:true` and `txData` set to the raw payload, while
`value.err` a non-null object resolves it with `confirmed:false` and `txData`
set to the payload carrying that error. -/
theorem ack_remap_then_notification (st : ServiceState) (L R : Nat) (sub : SubEntry)
    (hget : mapGet st.subs L = some sub)
    (huns : sub.localId ∉ settledKeys st) :
    mapGet (handleWebSocketMessage st (ackMessage L R)).subs R = some sub ∧
    (L ≠ R → mapGet (handleWebSocketMessage st (ackMessage L R)).subs L = none) ∧
    (∀ pf vf, lookupField pf "value" = some (JVal.obj vf) →
      lookupField vf "err" = some JVal.null →
      (handleWebSocketMessage (handleWebSocketMessage st (ackMessage L R))
          (notifMessage R (JVal.obj pf))).settled
        = st.settled ++ [(sub.localId, SettleKind.resolved ⟨true, some (JVal.obj pf)⟩)]) ∧
    (∀ pf vf ef, lookupField pf "value" = some (JVal.obj vf) →
      lookupField vf "err" = some (JVal.obj ef) →
      (handleWebSocketMessage (handleWebSocketMessage st (ackMessage L R))
          (notifMessage R (JVal.obj pf))).settled
        = st.settled ++ [(sub.localId, SettleKind.resolved ⟨false, some (JVal.obj pf)⟩)]) := by
  have hstAck : handleWebSocketMessage st (ackMessage L R)
      = { st with subs := mapSet (mapDelete st.subs L) R sub } := by
    rw [handleMessage_ack]
    unfold handleAck
    rw [hget]
  have h1 : mapGet (handleWebSocketMessage st (ackMessage L R)).subs R = some sub := by
    rw [hstAck]
    exact mapGet_mapSet_self _ _ _
  have huns2 : sub.localId ∉ settledKeys (handleWebSocketMessage st (ackMessage L R)) := by
    rw [hstAck]
    exact huns
  refine ⟨h1, ?_, ?_, ?_⟩
  · intro hne
    rw [hstAck]
    show mapGet (mapSet (mapDelete st.subs L) R sub) L = none
    rw [mapGet_mapSet_ne _ sub hne]
    exact mapGet_mapDelete_self _ _
  · intro pf vf hv he
    rw [notif_settles (JVal.obj pf) h1 huns2]
    have hf : notifFailure (JVal.obj pf) = false := by
      simp [notifFailure, jget, jsTruthy, isObjType, hasField, optTruthy, hv, he]
    rw [hf, hstAck]
    rfl
  · intro pf vf ef hv he
    rw [notif_settles (JVal.obj pf) h1 huns2]
    have hf : notifFailure (JVal.obj pf) = true := by
      simp [notifFailure, jget, jsTruthy, isObjType, hasField, optTruthy, hv, he]
    rw [hf, hstAck]
    rfl

theorem ack_remap_then_notification_witness :
    mapGet (handleWebSocketMessage (run [HEvent.subscribe "mySig"]) (ackMessage 1 7)).subs 7
        = some ⟨"mySig", 1⟩ ∧
    (handleWebSocketMessage
        (handleWebSocketMessage (run [HEvent.subscribe "mySig"]) (ackMessage 1 7))
        (notifMessage 7 (JVal.obj [("context", JVal.obj [("slot", JVal.num 5)]),
          ("value", JVal.obj [("err", JVal.null)])]))).settled
      = (run [HEvent.subscribe "mySig"]).settled
        ++ [(1, SettleKind.resolved ⟨true,
            some (JVal.obj [("context", JVal.obj [("slot", JVal.num 5)]),
              ("value", JVal.obj [("err", JVal.null)])])⟩)] ∧
    (handleWebSocketMessage
        (handleWebSocketMessage (run [HEvent.subscribe "mySig"]) (ackMessage 1 7))
        (notifMessage 7 (JVal.obj [("value",
          JVal.obj [("err", JVal.obj [("InstructionError", JVal.num 1)])])]))).settled
      = (run [HEvent.subscribe "mySig"]).settled
        ++ [(1, SettleKind.resolved ⟨false,
            some (JVal.obj [("value",
              JVal.obj [("err", JVal.obj [("InstructionError", JVal.num 1)])])])⟩)] :=
  ⟨(ack_remap_then_notification (run [HEvent.subscribe "mySig"]) 1 7 ⟨"mySig", 1⟩
      rfl (by decide)).1,
   (ack_remap_then_notification (run [HEvent.subscribe "mySig"]) 1 7 ⟨"mySig", 1⟩
      rfl (by decide)).2.2.1
      [("context", JVal.obj [("slot", JVal.num 5)]), ("value", JVal.obj [("err", JVal.null)])]
      [("err", JVal.null)] rfl rfl,
   (ack_remap_then_notification (run [HEvent.subscribe "mySig"]) 1 7 ⟨"mySig", 1⟩
      rfl (by decide)).2.2.2
      [("value", JVal.obj [("err", JVal.obj [("InstructionError", JVal.num 1)])])]
      [("err", JVal.obj [("InstructionError", JVal.num 1)])]
      [("InstructionError", JVal.num 1)] rfl rfl⟩

/-- C5 (amended): an inbound error frame with a truthy error on which the
benign test evaluates, without throwing, to false (any code other than -32602,
or a -32602 code with a nullish message or a string message not containing
"Invalid subscription") and whose id matches a tracked subscription cancels
that subscription's timer, removes its entry, appends exactly one rejection —
carrying the vendor's error message — to the settlement log, and leaves every
other table entry untouched.  Every error frame on which the benign test is
true is swallowed (state unchanged) regardless of whether its id is still
tracked; and every frame on which the test throws (code -32602 with a
non-nullish non-string message) is likewise a no-op — the TypeError is caught
by the message callback and the waiter stays pending. -/
theorem error_frame_rejects_waiter (st : ServiceState) (i : Nat) (sub : SubEntry) (e : JVal)
    (htr : jsTruthy e = true) (hnb : benignCheck e = BenignCheck.proceed)
    (hget : mapGet st.subs i = some sub)
    (huns : sub.localId ∉ settledKeys st)
    (htnd : st.timers.Nodup) :
    sub.localId ∉ (handleWebSocketMessage st ⟨none, none, none, some i, some e⟩).timers ∧
    mapGet (handleWebSocketMessage st ⟨none, none, none, some i, some e⟩).subs i = none ∧
    (handleWebSocketMessage st ⟨none, none, none, some i, some e⟩).settled
      = st.settled ++ [(sub.localId,
          SettleKind.rejected ("WebSocket error: " ++ errMessageText e))] ∧
    (∀ k, k ≠ i → k ≠ sub.localId →
      mapGet (handleWebSocketMessage st ⟨none, none, none, some i, some e⟩).subs k
        = mapGet st.subs k) ∧
    (∀ (e2 : JVal) (mid : Option Nat), benignCheck e2 = BenignCheck.swallow →
      handleWebSocketMessage st ⟨none, none, none, mid, some e2⟩ = st) ∧
    (∀ (e2 : JVal) (mid : Option Nat), benignCheck e2 = BenignCheck.thrown →
      handleWebSocketMessage st ⟨none, none, none, mid, some e2⟩ = st) := by
  have hst : handleWebSocketMessage st ⟨none, none, none, some i, some e⟩
      = rejectWithCleanup
          { st with
            timers := st.timers.erase sub.localId,
            subs := mapDelete st.subs i }
          sub.localId ("WebSocket error: " ++ errMessageText e) := by
    rw [handleMessage_err]
    exact handleErrorFrame_matched htr hnb hget
  refine ⟨?_, ?_, ?_, ?_, ?_, ?_⟩
  · rw [hst, rejectWithCleanup_timers]
    show sub.localId ∉ st.timers.erase sub.localId
    intro hc
    exact (htnd.mem_erase_iff.mp hc).1 rfl
  · rw [hst, rejectWithCleanup_subs]
    show mapGet (mapDelete (mapDelete st.subs i) sub.localId) i = none
    by_cases hk : i = sub.localId
    · rw [hk]
      exact mapGet_mapDelete_self _ _
    · rw [mapGet_mapDelete_ne _ hk]
      exact mapGet_mapDelete_self _ _
  · rw [hst]
    have huns2 : sub.localId ∉ settledKeys
        { st with
          timers := st.timers.erase sub.localId,
          subs := mapDelete st.subs i } := huns
    rw [rejectWithCleanup_settled_of_not_mem _ huns2]
  · intro k hk1 hk2
    rw [hst, rejectWithCleanup_subs]
    show mapGet (mapDelete (mapDelete st.subs i) sub.localId) k = mapGet st.subs k
    rw [mapGet_mapDelete_ne _ hk2, mapGet_mapDelete_ne _ hk1]
  · intro e2 mid hb
    rw [handleMessage_err]
    unfold handleErrorFrame
    by_cases htr2 : jsTruthy e2 = true
    · rw [if_pos htr2, hb]
    · rw [if_neg htr2]
  · intro e2 mid hb
    rw [handleMessage_err]
    unfold handleErrorFrame
    by_cases htr2 : jsTruthy e2 = true
    · rw [if_pos htr2, hb]
    · rw [if_neg htr2]

theorem error_frame_rejects_waiter_witness :
    (1 ∉ (handleWebSocketMessage (run [HEvent.subscribe "s"])
      ⟨none, none, none, some 1,
        some (JVal.obj [("code", JVal.num 3), ("message", JVal.str "boom")])⟩).timers) ∧
    (mapGet (handleWebSocketMessage (run [HEvent.subscribe "s"])
      ⟨none, none, none, some 1,
        some (JVal.obj [("code", JVal.num 3), ("message", JVal.str "boom")])⟩).subs 1 = none) ∧
    ((handleWebSocketMessage (run [HEvent.subscribe "s"])
      ⟨none, none, none, some 1,
        some (JVal.obj [("code", JVal.num 3), ("message", JVal.str "boom")])⟩).settled
      = (run [HEvent.subscribe "s"]).settled
        ++ [(1, SettleKind.rejected ("WebSocket error: "
            ++ errMessageText (JVal.obj [("code", JVal.num 3),
              ("message", JVal.str "boom")])))]) ∧
    (mapGet (handleWebSocketMessage (run [HEvent.subscribe "s"])
      ⟨none, none, none, some 1,
        some (JVal.obj [("code", JVal.num 3), ("message", JVal.str "boom")])⟩).subs 2
      = mapGet (run [HEvent.subscribe "s"]).subs 2) ∧
    (handleWebSocketMessage (run [HEvent.subscribe "s"])
      ⟨none, none, none, none,
        some (JVal.obj [("code", JVal.num (-32602)),
          ("message", JVal.str "Invalid subscription id")])⟩
      = run [HEvent.subscribe "s"]) ∧
    (handleWebSocketMessage (run [HEvent.subscribe "s"])
      ⟨none, none, none, some 1,
        some (JVal.obj [("code", JVal.num (-32602)), ("message", JVal.num 5)])⟩
      = run [HEvent.subscribe "s"]) :=
  ⟨(error_frame_rejects_waiter (run [HEvent.subscribe "s"]) 1 ⟨"s", 1⟩
      (JVal.obj [("code", JVal.num 3), ("message", JVal.str "boom")])
      rfl rfl rfl (by decide) (by decide)).1,
   (error_frame_rejects_waiter (run [HEvent.subscribe "s"]) 1 ⟨"s", 1⟩
      (JVal.obj [("code", JVal.num 3), ("message", JVal.str "boom")])
      rfl rfl rfl (by decide) (by decide)).2.1,
   (error_frame_rejects_waiter (run [HEvent.subscribe "s"]) 1 ⟨"s", 1⟩
      (JVal.obj [("code", JVal.num 3), ("message", JVal.str "boom")])
      rfl rfl rfl (by decide) (by decide)).2.2.1,
   (error_frame_rejects_waiter (run [HEvent.subscribe "s"]) 1 ⟨"s", 1⟩
      (JVal.obj [("code", JVal.num 3), ("message", JVal.str "boom")])
      rfl rfl rfl (by decide) (by decide)).2.2.2.1 2 (by decide) (by decide),
   (error_frame_rejects_waiter (run [HEvent.subscribe "s"]) 1 ⟨"s", 1⟩
      (JVal.obj [("code", JVal.num 3), ("message", JVal.str "boom")])
      rfl rfl rfl (by decide) (by decide)).2.2.2.2.1
      (JVal.obj [("code", JVal.num (-32602)),
        ("message", JVal.str "Invalid subscription id")]) none rfl,
   (error_frame_rejects_waiter (run [HEvent.subscribe "s"]) 1 ⟨"s", 1⟩
      (JVal.obj [("code", JVal.num 3), ("message", JVal.str "boom")])
      rfl rfl rfl (by decide) (by decide)).2.2.2.2.2
      (JVal.obj [("code", JVal.num (-32602)), ("message", JVal.num 5)]) (some 1) rfl⟩

/-- C5 (counterexample): the claim restricts the swallowed class to invalid
subscription id errors for ids already resolved/auto-unsubscribed, but the
code keys the benign filter on code and message alone: an error frame with
`code = -32602` and message containing "Invalid subscription" whose id is
STILL TRACKED (and unsettled) is also swallowed — the state is unchanged and
that waiter is not rejected, contradicting the claim that such a frame rejects
its waiter. -/
theorem benign_error_swallowed_for_tracked :
    mapGet (run [HEvent.subscribe "sig"]).subs 1 = some ⟨"sig", 1⟩ ∧
    (run [HEvent.subscribe "sig"]).settled = [] ∧
    handleWebSocketMessage (run [HEvent.subscribe "sig"])
      ⟨none, none, none, some 1,
        some (JVal.obj [("code", JVal.num (-32602)),
          ("message", JVal.str "Invalid subscription id")])⟩
      = run [HEvent.subscribe "sig"] :=
  ⟨rfl, rfl, rfl⟩

/-- C9: unrecognized or malformed inbound frames are ignored: an unparseable
frame (caught by the message callback), a notification whose subscription id
matches no table entry, an acknowledgment whose id matches no entry, an error
frame whose id matches no entry, and a frame with an unknown method all leave
the entire service state — subscription table and connection included —
unchanged; the handler is a total function, so it never throws. -/
theorem unmatched_frames_ignored (st : ServiceState) :
    (step st HEvent.malformedFrame = st) ∧
    (∀ (s : Nat) (payload : JVal), mapGet st.subs s = none →
      handleWebSocketMessage st (notifMessage s payload) = st) ∧
    (∀ (i r : Nat), mapGet st.subs i = none →
      handleWebSocketMessage st (ackMessage i r) = st) ∧
    (∀ (i : Nat) (e : JVal), mapGet st.subs i = none →
      handleWebSocketMessage st ⟨none, none, none, some i, some e⟩ = st) ∧
    (∀ (name : String) (ps : Option NotifParams), name ≠ "signatureNotification" →
      handleWebSocketMessage st ⟨some name, ps, none, none, none⟩ = st) := by
  refine ⟨rfl, ?_, ?_, ?_, ?_⟩
  · intro s payload h
    rw [handleMessage_notif]
    exact handleNotification_unmatched h
  · intro i r h
    rw [handleMessage_ack]
    exact handleAck_unmatched r h
  · intro i e h
    rw [handleMessage_err]
    refine handleErrorFrame_unmatched e (some i) ?_
    intro j hj
    injection hj with hj2
    rw [← hj2]
    exact h
  · intro name ps hname
    cases ps with
    | none => rfl
    | some p =>
      show (if some name = some "signatureNotification" then handleNotification st p
        else handleTail st ⟨some name, some p, none, none, none⟩) = st
      rw [if_neg (fun hc => hname (Option.some.inj hc))]
      rfl

theorem unmatched_frames_ignored_witness :
    (step initState HEvent.malformedFrame = initState) ∧
    (handleWebSocketMessage initState (notifMessage 9 JVal.null) = initState) ∧
    (handleWebSocketMessage initState (ackMessage 4 9) = initState) ∧
    (handleWebSocketMessage initState
      ⟨none, none, none, some 4, some (JVal.str "err")⟩ = initState) ∧
    (handleWebSocketMessage initState
      ⟨some "otherMethod", none, none, none, none⟩ = initState) :=
  ⟨(unmatched_frames_ignored initState).1,
   (unmatched_frames_ignored initState).2.1 9 JVal.null rfl,
   (unmatched_frames_ignored initState).2.2.1 4 9 rfl,
   (unmatched_frames_ignored initState).2.2.2.1 4 (JVal.str "err") rfl,
   (unmatched_frames_ignored initState).2.2.2.2 "otherMethod" none (by decide)⟩

theorem runConnRequests_inflight (k : Nat) :
    ∀ w : Nat, runConnRequests k ⟨false, true, 1, w⟩ = ⟨false, true, 1, w + k⟩ := by
  induction k with
  | zero => intro w; rfl
  | succ k ih =>
    intro w
    rw [runConnRequests]
    have h1 : connRequest ⟨false, true, 1, w⟩ = ⟨false, true, 1, w + 1⟩ := rfl
    rw [h1, ih]
    congr 1
    omega

/-- C6: `n ≥ 1` `monitorTransaction` callers entering
`ensureWebSocketConnected` while Disconnected produce exactly one
`connectWebSocket` invocation: the first caller stores the shared connecting
future, every later caller joins it as a waiter, and when the single attempt
completes with outcome `b` all `n` callers receive that same outcome — all
proceed on success and all fail on failure. -/
theorem single_connection_attempt (n : Nat) (b : Bool) (hn : 0 < n) :
    (runConnRequests n connInit).attempts = 1 ∧
    (runConnRequests n connInit).waiters = n ∧
    (runConnRequests n connInit).connecting = true ∧
    (connComplete (runConnRequests n connInit) b).2 = List.replicate n b ∧
    (connComplete (runConnRequests n connInit) b).1.wsConnected = b ∧
    (connComplete (runConnRequests n connInit) b).1.connecting = false := by
  obtain ⟨m, rfl⟩ : ∃ m, n = m + 1 := ⟨n - 1, by omega⟩
  have hrun : runConnRequests (m + 1) connInit = ⟨false, true, 1, m + 1⟩ := by
    rw [runConnRequests]
    have h1 : connRequest connInit = ⟨false, true, 1, 1⟩ := rfl
    rw [h1, runConnRequests_inflight]
    congr 1
    omega
  rw [hrun]
  exact ⟨rfl, rfl, rfl, rfl, rfl, rfl⟩

theorem single_connection_attempt_witness :
    (runConnRequests 3 connInit).attempts = 1 ∧
    (runConnRequests 3 connInit).waiters = 3 ∧
    (runConnRequests 3 connInit).connecting = true ∧
    (connComplete (runConnRequests 3 connInit) true).2 = List.replicate 3 true ∧
    (connComplete (runConnRequests 3 connInit) true).1.wsConnected = true ∧
    (connComplete (runConnRequests 3 connInit) true).1.connecting = false :=
  single_connection_attempt 3 true (by decide)

/-- C8: the URL resolvers are total functions of `(apiKey, network)` — pure
and deterministic by construction.  A network name containing "devnet"
selects the devnet subdomain, any other network the mainnet subdomain, for
both the HTTP and the WebSocket URL; an empty apiKey still yields the
well-formed HTTP URL ending in "?api-key=", while `getWebSocketUrl` returns
none and `supportsTransactionMonitoring()` is false. -/
theorem helius_url_properties (apiKey network : String) :
    (strContains network "devnet" = true →
      heliusGetHttpUrl apiKey network = "https://devnet.helius-rpc.com/?api-key=" ++ apiKey) ∧
    (strContains network "devnet" = false →
      heliusGetHttpUrl apiKey network = "https://mainnet.helius-rpc.com/?api-key=" ++ apiKey) ∧
    (isApiKeyValid apiKey = true → strContains network "devnet" = true →
      heliusGetWebSocketUrl apiKey network
        = some ("wss://devnet.helius-rpc.com/?api-key=" ++ apiKey)) ∧
    (isApiKeyValid apiKey = true → strContains network "devnet" = false →
      heliusGetWebSocketUrl apiKey network
        = some ("wss://mainnet.helius-rpc.com/?api-key=" ++ apiKey)) ∧
    (heliusGetHttpUrl "" network
      = (if strContains network "devnet" then "https://devnet.helius-rpc.com/?api-key="
         else "https://mainnet.helius-rpc.com/?api-key=")) ∧
    heliusGetWebSocketUrl "" network = none ∧
    heliusSupportsMonitoring "" = false := by
  refine ⟨?_, ?_, ?_, ?_, ?_, ?_, rfl⟩
  · intro h
    unfold heliusGetHttpUrl
    rw [if_pos h]
    congr 1
  · intro h
    unfold heliusGetHttpUrl
    rw [if_neg (by simp [h])]
    congr 1
  · intro hk h
    unfold heliusGetWebSocketUrl
    rw [if_pos hk, if_pos h]
    congr 2
  · intro hk h
    unfold heliusGetWebSocketUrl
    rw [if_pos hk, if_neg (by simp [h])]
    congr 2
  · unfold heliusGetHttpUrl
    by_cases h : strContains network "devnet" = true
    · rw [if_pos h, if_pos h]
      rfl
    · rw [if_neg h, if_neg h]
      rfl
  · rfl

theorem helius_url_properties_witness :
    heliusGetHttpUrl "k1" "mainnet-beta" = "https://mainnet.helius-rpc.com/?api-key=" ++ "k1" ∧
    heliusGetHttpUrl "k1" "solana-devnet" = "https://devnet.helius-rpc.com/?api-key=" ++ "k1" ∧
    heliusGetWebSocketUrl "k1" "mainnet-beta"
      = some ("wss://mainnet.helius-rpc.com/?api-key=" ++ "k1") ∧
    heliusGetWebSocketUrl "" "mainnet-beta" = none ∧
    heliusSupportsMonitoring "" = false :=
  ⟨(helius_url_properties "k1" "mainnet-beta").2.1 rfl,
   (helius_url_properties "k1" "solana-devnet").1 rfl,
   (helius_url_properties "k1" "mainnet-beta").2.2.2.1 rfl rfl,
   (helius_url_properties "" "mainnet-beta").2.2.2.2.2.1,
   (helius_url_properties "" "mainnet-beta").2.2.2.2.2.2⟩

/-- C10: `InfuraService` construction fails for any chain other than
"ethereum"; `getHttpUrl` — and therefore construction, which resolves the URL
in `initializeHttpProvider` — fails for any chainId absent from the fixed
network map; and for every mapped chainId the URL is deterministically
`https://NETWORKNAME.infura.io/v3/APIKEY`. -/
theorem infura_construct_and_url (chain apiKey : String) (cid : Int) :
    (chain ≠ "ethereum" →
      infuraConstruct chain apiKey cid
        = Except.error "InfuraService only supports Ethereum networks") ∧
    (lookupNetwork infuraNetworkMap cid = none →
      infuraGetHttpUrl apiKey cid
        = Except.error ("Infura network not supported for chainID: " ++ toString cid) ∧
      infuraConstruct "ethereum" apiKey cid
        = Except.error ("Infura network not supported for chainID: " ++ toString cid)) ∧
    (∀ n, lookupNetwork infuraNetworkMap cid = some n →
      infuraGetHttpUrl apiKey cid
        = Except.ok ("https://" ++ n ++ ".infura.io/v3/" ++ apiKey) ∧
      infuraConstruct "ethereum" apiKey cid = Except.ok ()) := by
  refine ⟨?_, ?_, ?_⟩
  · intro h
    unfold infuraConstruct
    rw [if_pos (bne_iff_ne.mpr h)]
  · intro h
    have hu : infuraGetHttpUrl apiKey cid
        = Except.error ("Infura network not supported for chainID: " ++ toString cid) := by
      unfold infuraGetHttpUrl getInfuraNetworkName
      rw [h]
    refine ⟨hu, ?_⟩
    unfold infuraConstruct
    rw [if_neg (by simp), hu]
  · intro n h
    have hu : infuraGetHttpUrl apiKey cid
        = Except.ok ("https://" ++ n ++ ".infura.io/v3/" ++ apiKey) := by
      unfold infuraGetHttpUrl getInfuraNetworkName
      rw [h]
    refine ⟨hu, ?_⟩
    unfold infuraConstruct
    rw [if_neg (by simp), hu]

theorem infura_construct_and_url_witness :
    infuraConstruct "solana" "apiKeyX" 1
      = Except.error "InfuraService only supports Ethereum networks" ∧
    infuraGetHttpUrl "apiKeyX" 2
      = Except.error ("Infura network not supported for chainID: " ++ toString (2 : Int)) ∧
    infuraConstruct "ethereum" "apiKeyX" 2
      = Except.error ("Infura network not supported for chainID: " ++ toString (2 : Int)) ∧
    infuraGetHttpUrl "apiKeyX" 137
      = Except.ok ("https://" ++ "polygon-mainnet" ++ ".infura.io/v3/" ++ "apiKeyX") ∧
    infuraConstruct "ethereum" "apiKeyX" 137 = Except.ok () :=
  ⟨(infura_construct_and_url "solana" "apiKeyX" 1).1 (by decide),
   ((infura_construct_and_url "ethereum" "apiKeyX" 2).2.1 rfl).1,
   ((infura_construct_and_url "ethereum" "apiKeyX" 2).2.1 rfl).2,
   ((infura_construct_and_url "ethereum" "apiKeyX" 137).2.2 "polygon-mainnet" rfl).1,
   ((infura_construct_and_url "ethereum" "apiKeyX" 137).2.2 "polygon-mainnet" rfl).2⟩

theorem resolveWithCleanup_armed_of_empty {st : ServiceState} {w : Nat}
    (r : TxMonitorResult) (h : mapDelete st.subs w = []) :
    (resolveWithCleanup st w r).idleArmed = true := by
  unfold resolveWithCleanup
  rw [settle_armed]
  unfold scheduleIdleDisconnect
  have hc : ¬ (({ st with subs := mapDelete st.subs w } : ServiceState).subs.length > 0) := by
    show ¬ ((mapDelete st.subs w).length > 0)
    rw [h]
    simp
  rw [if_neg hc]

theorem rejectWithCleanup_armed_of_empty {st : ServiceState} {w : Nat}
    (msg : String) (h : mapDelete st.subs w = []) :
    (rejectWithCleanup st w msg).idleArmed = true := by
  unfold rejectWithCleanup
  rw [settle_armed]
  unfold scheduleIdleDisconnect
  have hc : ¬ (({ st with subs := mapDelete st.subs w } : ServiceState).subs.length > 0) := by
    show ¬ ((mapDelete st.subs w).length > 0)
    rw [h]
    simp
  rw [if_neg hc]

/-- C7 (amended): the claimed iff between "idle timer armed" and "table empty
and connection open" holds at operation boundaries except in the single case
the counterexample forces.  Armed only if the table is empty (every trace);
any new subscription (entered with an open connection) leaves the idle timer
canceled; the idle-timer callback never closes the connection while
subscriptions are outstanding; and conversely the timer IS armed after each
timeout, resolution, or rejection operation that leaves the table empty,
while after `disconnect()` or a transport close the connection is closed (so
"empty and open" is false there).  The sole failure of the original iff —
`disconnect()` with pending subscriptions arming the timer with the socket
closed — is refuted separately. -/
theorem idle_timer_discipline :
    (∀ events : List HEvent, (run events).idleArmed = true → (run events).subs = []) ∧
    (∀ (st : ServiceState) (sig : String), st.ws = true →
      (doSubscribe st sig).idleArmed = false) ∧
    (∀ st : ServiceState, st.subs ≠ [] → (doIdleFire st).ws = st.ws) ∧
    (∀ (st : ServiceState) (l : Nat), l ∈ st.timers →
      (doTimeoutFire st l).subs = [] → (doTimeoutFire st l).idleArmed = true) ∧
    (∀ (st : ServiceState) (p : NotifParams) (sub : SubEntry),
      mapGet st.subs p.subscription = some sub →
      (handleNotification st p).subs = [] →
      (handleNotification st p).idleArmed = true) ∧
    (∀ (st : ServiceState) (i : Nat) (sub : SubEntry) (e : JVal),
      jsTruthy e = true → benignCheck e = BenignCheck.proceed →
      mapGet st.subs i = some sub →
      (handleErrorFrame st e (some i)).subs = [] →
      (handleErrorFrame st e (some i)).idleArmed = true) ∧
    (∀ st : ServiceState, (doDisconnect st).ws = false ∧ (doWsClose st).ws = false) := by
  refine ⟨?_, ?_, ?_, ?_, ?_, ?_, ?_⟩
  · intro events h
    exact (svcInv_run events).armedEmpty h
  · intro st sig h
    unfold doSubscribe
    rw [if_pos h]
  · intro st h
    unfold doIdleFire
    split
    · split
      · rename_i hc
        exact absurd (List.length_eq_zero.mp hc.1) h
      · rfl
    · rfl
  · intro st l hl hempty
    unfold doTimeoutFire at hempty ⊢
    rw [if_pos hl] at hempty ⊢
    rw [settle_subs, scheduleIdle_subs] at hempty
    rw [settle_armed]
    unfold scheduleIdleDisconnect
    have h2 : mapDelete st.subs l = [] := hempty
    have hc : ¬ (({ st with
        timers := st.timers.erase l,
        subs := mapDelete st.subs l } : ServiceState).subs.length > 0) := by
      show ¬ ((mapDelete st.subs l).length > 0)
      rw [h2]
      simp
    rw [if_neg hc]
  · intro st p sub hget hempty
    rw [handleNotification_matched hget] at hempty ⊢
    rw [resolveWithCleanup_subs] at hempty
    exact resolveWithCleanup_armed_of_empty _ hempty
  · intro st i sub e htr hnb hget hempty
    rw [handleErrorFrame_matched htr hnb hget] at hempty ⊢
    rw [rejectWithCleanup_subs] at hempty
    exact rejectWithCleanup_armed_of_empty _ hempty
  · intro st
    refine ⟨rfl, ?_⟩
    show (rejectAllLoop st.subs { st with ws := false } "WebSocket disconnected").ws = false
    rw [rejectAllLoop_ws]

theorem idle_timer_discipline_witness :
    (run [HEvent.subscribe "s", HEvent.timeoutFire 1]).subs = [] ∧
    (doSubscribe initState "s").idleArmed = false ∧
    (doIdleFire (run [HEvent.subscribe "s"])).ws = (run [HEvent.subscribe "s"]).ws ∧
    (doTimeoutFire (run [HEvent.subscribe "s"]) 1).idleArmed = true ∧
    (handleNotification (run [HEvent.subscribe "s"]) ⟨JVal.null, 1⟩).idleArmed = true ∧
    (handleErrorFrame (run [HEvent.subscribe "s"])
      (JVal.obj [("code", JVal.num 3), ("message", JVal.str "x")]) (some 1)).idleArmed
      = true ∧
    (doDisconnect initState).ws = false ∧ (doWsClose initState).ws = false :=
  ⟨idle_timer_discipline.1 [HEvent.subscribe "s", HEvent.timeoutFire 1] rfl,
   idle_timer_discipline.2.1 initState "s" rfl,
   idle_timer_discipline.2.2.1 (run [HEvent.subscribe "s"]) (by decide),
   idle_timer_discipline.2.2.2.1 (run [HEvent.subscribe "s"]) 1 (by decide) rfl,
   idle_timer_discipline.2.2.2.2.1 (run [HEvent.subscribe "s"]) ⟨JVal.null, 1⟩
     ⟨"s", 1⟩ rfl rfl,
   idle_timer_discipline.2.2.2.2.2.1 (run [HEvent.subscribe "s"]) 1 ⟨"s", 1⟩
     (JVal.obj [("code", JVal.num 3), ("message", JVal.str "x")]) rfl rfl rfl rfl,
   (idle_timer_discipline.2.2.2.2.2.2 initState).1,
   (idle_timer_discipline.2.2.2.2.2.2 initState).2⟩
